import Mathlib

/-!
Verification of `_app/homepage/services/authentication.py` (webauthn.io).

The file shallowly embeds the `AuthenticationService` class: its two public
operations (`generate_authentication_options`, `verify_authentication_response`)
and its cache helpers (`_save_options`, `_get_options`, `_delete_options`).
External collaborators (the py_webauthn library, the Redis-backed cache, Django
settings, the `InvalidAuthenticationResponse` exception class) live outside the
source tree; they are modelled as oracles / explicit state, following the
repository specification.  Bytes are modelled as `Nat` values below 256 and
base64url text as `List Char`.

Name binding is modelled faithfully: the module calls
`json_loads_base64url_to_bytes` at line 143 without ever importing it, so
every cache hit inside `_get_options` raises `NameError`; and the local
`_user_verification` is assigned only in the if/elif branches of lines
54-59, so an unrecognized policy string raises `UnboundLocalError` at line
63.  Both raised errors are explicit values of the embedding.
-/

namespace WebauthnIO

/-!
The base64url codec.  Models py_webauthn's `bytes_to_base64url` (urlsafe
base64 with the `=` padding stripped) and `base64url_to_bytes` (padding
restored, then urlsafe base64 decode).  These helpers are outside `src/`;
modelled from the spec, which describes them as standard base64url
encode/decode over the RFC 4648 URL-safe alphabet `A-Z a-z 0-9 - _` without
padding.
-/

/-- Value 0..63 to its character in the base64url alphabet. -/
def sixToChar (n : Nat) : Char :=
  if n < 26 then Char.ofNat (65 + n)
  else if n < 52 then Char.ofNat (97 + (n - 26))
  else if n < 62 then Char.ofNat (48 + (n - 52))
  else if n = 62 then '-'
  else '_'

/-- Character of the base64url alphabet back to its 6-bit value. -/
def charToSix (c : Char) : Nat :=
  if 65 ≤ c.toNat ∧ c.toNat ≤ 90 then c.toNat - 65
  else if 97 ≤ c.toNat ∧ c.toNat ≤ 122 then c.toNat - 97 + 26
  else if 48 ≤ c.toNat ∧ c.toNat ≤ 57 then c.toNat - 48 + 52
  else if c = '-' then 62
  else 63

/-- Bytes to 6-bit groups, processing 3 bytes into 4 sextets; a trailing
1-byte (resp. 2-byte) group yields 2 (resp. 3) sextets, matching base64url
with the `=` padding stripped. -/
def bytesToSextets : List Nat → List Nat
  | [] => []
  | [a] => [a / 4, a % 4 * 16]
  | [a, b] => [a / 4, a % 4 * 16 + b / 16, b % 16 * 4]
  | a :: b :: c :: rest =>
      a / 4 :: (a % 4 * 16 + b / 16) :: (b % 16 * 4 + c / 64) :: c % 64 ::
        bytesToSextets rest

/-- Six-bit groups back to bytes, processing 4 sextets into 3 bytes; a
trailing 2-sextet (resp. 3-sextet) group yields 1 (resp. 2) bytes.  A lone
trailing sextet cannot arise from an encoded value and yields nothing. -/
def sextetsToBytes : List Nat → List Nat
  | [] => []
  | [_] => []
  | [x, y] => [x * 4 + y / 16]
  | [x, y, z] => [x * 4 + y / 16, y % 16 * 16 + z / 4]
  | x :: y :: z :: w :: rest =>
      (x * 4 + y / 16) :: (y % 16 * 16 + z / 4) :: (z % 4 * 64 + w) ::
        sextetsToBytes rest

/-- Models py_webauthn's `bytes_to_base64url`. -/
def bytesToBase64url (l : List Nat) : List Char :=
  (bytesToSextets l).map sixToChar

/-- Models py_webauthn's `base64url_to_bytes`. -/
def base64urlToBytes (s : List Char) : List Nat :=
  sextetsToBytes (s.map charToSix)

/-!
Data model.  Structures mirror the py_webauthn structs used by the source and
the repository's own dataclasses.  Only the fields the source reads are
modelled.
-/

/-- Model of `webauthn.helpers.structs.UserVerificationRequirement` (a string
enum with values "discouraged" / "preferred" / "required"). -/
inductive UserVerificationRequirement
  | DISCOURAGED
  | PREFERRED
  | REQUIRED
deriving DecidableEq

/-- Model of `webauthn.helpers.structs.PublicKeyCredentialDescriptor` (lines
65-67 build these).  The constant `type="public-key"` field is omitted; `id`
is raw bytes, `transports` the transport hints. -/
structure PublicKeyCredentialDescriptor where
  id : List Nat
  transports : List String
deriving DecidableEq

/-- Model of `webauthn.helpers.structs.PublicKeyCredentialRequestOptions`:
the fields the source reads (`challenge`, `timeout`, `allow_credentials`,
`user_verification`) plus `rp_id`. -/
structure PublicKeyCredentialRequestOptions where
  challenge : List Nat
  timeout : Option Nat
  rp_id : Option String
  allowCredentials : List PublicKeyCredentialDescriptor
  userVerification : Option UserVerificationRequirement
deriving DecidableEq

/-- Model of `homepage.models.WebAuthnCredential` (outside `src/`): modelled
from the spec §3 "Stored Credential": id and public key are base64url text at
rest, plus signature counter, owning username and transports. -/
structure WebAuthnCredential where
  id : List Char
  public_key : List Char
  sign_count : Nat
  username : String
  transports : List String
deriving DecidableEq

/-- The repository's own `VerifiedAuthentication` dataclass (lines 25-34). -/
structure VerifiedAuthentication where
  credential_id : List Nat
  new_sign_count : Nat
  username : String
deriving DecidableEq

/-- The result type of py_webauthn's `verify_authentication_response`: the
two fields the source reads (lines 110-111). -/
structure LibVerifiedAuthentication where
  credential_id : List Nat
  new_sign_count : Nat
deriving DecidableEq

/-- The raw client-submitted response `dict` (opaque to the source: it is
only handed to the library parser at line 83).  Modelled as a JSON-ish string
map. -/
def Dict : Type := List (String × String)

/-- Result of `parse_authentication_credential_json`; opaque to the source,
only passed through to the verifier (line 98). -/
structure AuthenticationCredential where
  raw : Dict

/-- Django `settings` values read by the source (lines 62, 100-101). -/
structure Settings where
  RP_ID : String
  RP_EXPECTED_ORIGIN : String

/-- Errors a call can raise.  `invalidAuthenticationResponse` models the
repository's `homepage.exceptions.InvalidAuthenticationResponse` (raised at
line 87 with a message); `parseError` and `verificationError` stand for
exceptions propagated from the library; `unboundLocalError` is Python's
error for referencing a never-assigned local (line 63 on an unrecognized
policy string); `nameError` is Python's error for referencing an unbound
module-level name — `json_loads_base64url_to_bytes` is called at line 143
but never imported by the module (lines 10-13 bind only
`base64url_to_bytes` and `parse_authentication_credential_json`). -/
inductive PyErr
  | invalidAuthenticationResponse (message : String)
  | parseError
  | verificationError
  | unboundLocalError
  | nameError
deriving DecidableEq

/-!
Cache and the serialized options document.  The Redis-backed cache
(`homepage.services.RedisService`, outside `src/`) is modelled from the spec
§6: key-value storage with `store key value expiration_seconds`,
`retrieve key` returning the value or absence, and `delete key`.  The stored
value is the JSON document produced by py_webauthn's `options_to_json`; the
JSON text layer (serialize at line 129, parse at line 143) is modelled
structurally, the library guaranteeing that JSON parsing inverts JSON
serialization, so the cache holds the parsed document.
-/

/-- The allowed-credential entry as it sits in the cache: the id is base64url
TEXT here (that is exactly why `_get_options` must re-decode it). -/
structure AllowCredentialJSON where
  id : List Char
  transports : List String
deriving DecidableEq

/-- JSON form of `PublicKeyCredentialRequestOptions` as stored in the
cache: `challenge` and every `allowCredentials[].id` are base64url text. -/
structure OptionsJSON where
  challenge : List Char
  timeout : Option Nat
  rp_id : Option String
  allowCredentials : List AllowCredentialJSON
  userVerification : Option UserVerificationRequirement
deriving DecidableEq

/-- Cache state: a map from keys to stored documents. -/
def Cache : Type := String → Option OptionsJSON

/-- Models `RedisService.store` (from the spec §6). -/
def cacheStore (st : Cache) (key : String) (value : OptionsJSON) : Cache :=
  fun k => if k = key then some value else st k

/-- Models `RedisService.retrieve` (from the spec §6). -/
def cacheRetrieve (st : Cache) (key : String) : Option OptionsJSON :=
  st key

/-- Models `RedisService.delete` (from the spec §6); idempotent. -/
def cacheDeleteKey (st : Cache) (key : String) : Cache :=
  fun k => if k = key then none else st k

/-- Models py_webauthn's `options_to_json` (outside `src/`, from the spec
§6): field-wise serialization of the options, base64url-encoding exactly the
binary fields (the challenge and each allowed-credential id). -/
def options_to_json (o : PublicKeyCredentialRequestOptions) : OptionsJSON where
  challenge := bytesToBase64url o.challenge
  timeout := o.timeout
  rp_id := o.rp_id
  allowCredentials :=
    o.allowCredentials.map (fun c => ⟨bytesToBase64url c.id, c.transports⟩)
  userVerification := o.userVerification

/-- The decode WRITTEN at lines 143-150 of `_get_options`: parse the stored
JSON document (modelled as the inverse of the structural serialization),
then manually re-decode `challenge` and every `allowCredentials[].id` from
base64url text to bytes and rebuild the options via `parse_obj`.  In the
module as it stands these lines are dead code: line 143 references
`json_loads_base64url_to_bytes`, which the module never imports, so the
statement raises `NameError` before any of this runs (see `get_options`).
This definition therefore expresses only the intended load behaviour and is
used to show what the ceremony design expects of the decode. -/
def decodeStoredOptions (j : OptionsJSON) : PublicKeyCredentialRequestOptions where
  challenge := base64urlToBytes j.challenge
  timeout := j.timeout
  rp_id := j.rp_id
  allowCredentials :=
    j.allowCredentials.map (fun c => ⟨base64urlToBytes c.id, c.transports⟩)
  userVerification := j.userVerification

namespace AuthenticationService

/-- The arguments `_save_options` passes to `redis.store` (lines 128-130):
the key, the serialized value and the computed expiration. -/
structure StoreCall where
  key : String
  value : OptionsJSON
  expiration_seconds : Nat
deriving DecidableEq

/-- Lines 119-126: `expiration = options.timeout`; if it is an int,
`expiration = int(expiration / 1000 * 2)` — float division then truncation,
which for every timeout below 2^40 ms agrees with Nat division
`2 * t / 1000` (for t a multiple of 500 the float result is an exact integer
and no truncation occurs); otherwise (no timeout) 120 seconds. -/
def computeExpiration (timeout : Option Nat) : Nat :=
  match timeout with
  | some t => 2 * t / 1000
  | none => 120

/-- Embeds `_save_options` (lines 115-130): computes the expiration and
stores the serialized options under the key.  Returns the store call made
together with the new cache state. -/
def save_options (st : Cache) (cache_key : String)
    (options : PublicKeyCredentialRequestOptions) : StoreCall × Cache :=
  let expiration := computeExpiration options.timeout
  (⟨cache_key, options_to_json options, expiration⟩,
   cacheStore st cache_key (options_to_json options))

/-- Embeds `_get_options` (lines 132-150).  `redis.retrieve` runs first; on
a miss the `None` is returned unchanged (lines 137-138), reaching neither
line 143 nor the decode.  On a hit, line 143 calls
`json_loads_base64url_to_bytes` — a name the module's imports (lines 1-22)
never bind — so Python raises `NameError` there on every execution; the
decode of lines 144-150 (`decodeStoredOptions`) is unreachable.  `.error`
models the raised exception. -/
def get_options (st : Cache) (cache_key : String) :
    Except PyErr (Option PublicKeyCredentialRequestOptions) :=
  match cacheRetrieve st cache_key with
  | none => .ok none
  | some _stored => .error .nameError

/-- Embeds `_delete_options` (lines 152-153). -/
def delete_options (st : Cache) (cache_key : String) : Cache :=
  cacheDeleteKey st cache_key

/-- Lines 54-59: the if/elif chain translating the `user_verification`
string.  `none` means no branch ran, so the local `_user_verification` is
left UNBOUND — referencing it afterwards raises `UnboundLocalError`. -/
def parse_user_verification (user_verification : String) :
    Option UserVerificationRequirement :=
  if user_verification = "discouraged" then some .DISCOURAGED
  else if user_verification = "preferred" then some .PREFERRED
  else if user_verification = "required" then some .REQUIRED
  else none

/-- Lines 65-67: each kept credential becomes a descriptor with its id
base64url-decoded to bytes. -/
def descriptorOfCredential (cred : WebAuthnCredential) :
    PublicKeyCredentialDescriptor :=
  ⟨base64urlToBytes cred.id, cred.transports⟩

/-- The `allow_credentials` list built at lines 64-69: Python
`existing_credentials[-64:]` keeps the last 64 list elements (the whole list
when shorter), here `drop (length - 64)` with truncating Nat subtraction. -/
def allowCredentialsOf (existing_credentials : List WebAuthnCredential) :
    List PublicKeyCredentialDescriptor :=
  (existing_credentials.drop (existing_credentials.length - 64)).map
    descriptorOfCredential

/-- One invocation of the external option generator, with the arguments the
source passes (lines 61-70). -/
structure GenerateCall where
  rp_id : String
  user_verification : UserVerificationRequirement
  allow_credentials : List PublicKeyCredentialDescriptor
deriving DecidableEq

/-- The external py_webauthn library as an oracle: response parsing, option
generation, cryptographic verification.  `verify` receives the credential,
expected challenge, expected rp id, expected origin, the
require-user-verification flag, the public key bytes and the current sign
count (lines 97-105); `none` models a raised exception. -/
structure WebAuthnLib where
  parse : Dict → Option AuthenticationCredential
  generateOptions : String → UserVerificationRequirement →
    List PublicKeyCredentialDescriptor → PublicKeyCredentialRequestOptions
  verify : AuthenticationCredential → List Nat → String → String → Bool →
    List Nat → Nat → Option LibVerifiedAuthentication

/-- Outcome of `generate_authentication_options`: the returned value or
raised error, the cache state after the call, and the option-generator
invocations made (empty when the call failed before reaching the library). -/
structure BeginOutcome where
  result : Except PyErr PublicKeyCredentialRequestOptions
  cache : Cache
  generateCalls : List GenerateCall

/-- Embeds `generate_authentication_options` (lines 43-74).  When the
`user_verification` string matches no branch, evaluating `_user_verification`
at line 63 raises `UnboundLocalError`: the library is never called and
nothing is stored. -/
def generate_authentication_options (lib : WebAuthnLib) (settings : Settings)
    (st : Cache) (cache_key : String) (user_verification : String)
    (existing_credentials : List WebAuthnCredential) : BeginOutcome :=
  match parse_user_verification user_verification with
  | none => ⟨.error .unboundLocalError, st, []⟩
  | some uv =>
    let allow := allowCredentialsOf existing_credentials
    let authentication_options := lib.generateOptions settings.RP_ID uv allow
    let saved := save_options st cache_key authentication_options
    ⟨.ok authentication_options, saved.2, [⟨settings.RP_ID, uv, allow⟩]⟩

/-- Observable events of a `verify_authentication_response` call, in order:
the response parse, each cache operation, and the invocation of the external
verifier (recording the `require_user_verification` flag passed to it). -/
inductive Event
  | parseCall
  | cacheReadEvt (key : String)
  | cacheDeleteEvt (key : String)
  | verifyCall (require_user_verification : Bool)
deriving DecidableEq

/-- Lines 89-93: `require_user_verification` starts `False`; a set policy is
a non-empty enum string, hence truthy, and the flag becomes the comparison
with `REQUIRED`; an unset policy is `None`, falsy, leaving `False`. -/
def require_user_verification_of
    (policy : Option UserVerificationRequirement) : Bool :=
  match policy with
  | none => false
  | some uv => decide (uv = UserVerificationRequirement.REQUIRED)

/-- Outcome of `verify_authentication_response`: returned value or raised
error, cache state after the call, and the trace of observable events. -/
structure FinishOutcome where
  result : Except PyErr VerifiedAuthentication
  cache : Cache
  trace : List Event

/-- Embeds `verify_authentication_response` (lines 76-113): parse the client
response (line 83), load the stored options (line 84).  A load that raises
(`NameError` on every cache hit, see `get_options`) propagates out of the
call with only the read performed.  An absent entry raises
`InvalidAuthenticationResponse` naming the key (line 87).  Lines 89-113 —
derive the require-user-verification flag, delete the stored options, call
the external verifier, return the library's credential id and new sign count
with the username taken from the server-side `existing_credential` record
(line 107) — are embedded as written, but that branch is unreachable in the
module: `get_options` never produces a value. -/
def verify_authentication_response (lib : WebAuthnLib) (settings : Settings)
    (st : Cache) (cache_key : String)
    (existing_credential : WebAuthnCredential) (response : Dict) :
    FinishOutcome :=
  match lib.parse response with
  | none => ⟨.error .parseError, st, [.parseCall]⟩
  | some credential =>
    match get_options st cache_key with
    | .error e =>
      -- The exception raised inside `_get_options` propagates; only the
      -- cache read has happened.
      ⟨.error e, st, [.parseCall, .cacheReadEvt cache_key]⟩
    | .ok none =>
      ⟨.error (.invalidAuthenticationResponse
          ("no options for user " ++ cache_key)), st,
        [.parseCall, .cacheReadEvt cache_key]⟩
    | .ok (some options) =>
      -- Lines 89-113 as written; dead code in the module as it stands.
      let require_user_verification :=
        require_user_verification_of options.userVerification
      let st2 := delete_options st cache_key
      ⟨(match lib.verify credential options.challenge settings.RP_ID
            settings.RP_EXPECTED_ORIGIN require_user_verification
            (base64urlToBytes existing_credential.public_key)
            existing_credential.sign_count with
        | none => .error .verificationError
        | some verification =>
            .ok ⟨verification.credential_id, verification.new_sign_count,
              existing_credential.username⟩),
        st2,
        [.parseCall, .cacheReadEvt cache_key, .cacheDeleteEvt cache_key,
          .verifyCall require_user_verification]⟩

end AuthenticationService

open AuthenticationService

/-!
Concrete fixtures used by the witness theorems.
-/

/-- Fixture: relying-party settings. -/
def testSettings : Settings := ⟨"example.com", "https://example.com"⟩

/-- Fixture: a stored credential record owned by user "alice"; id and public
key are the base64url text "AQ" (the single byte 1). -/
def testCredRecord : WebAuthnCredential :=
  ⟨['A', 'Q'], ['A', 'Q'], 5, "alice", ["usb"]⟩

/-- Fixture: a parsed client credential. -/
def testParsed : AuthenticationCredential := ⟨[]⟩

/-- Fixture: generated options with a challenge, a 60 s timeout, one allowed
credential and the "required" verification policy. -/
def testOptions : PublicKeyCredentialRequestOptions :=
  ⟨[3, 7, 255], some 60000, some "example.com", [⟨[1, 2], ["usb"]⟩],
    some .REQUIRED⟩

/-- Fixture: options whose timeout (750 ms) is not a multiple of 500. -/
def opts750 : PublicKeyCredentialRequestOptions :=
  ⟨[1], some 750, some "example.com", [], none⟩

/-- Fixture: the serialized form of `testOptions`. -/
def testStored : OptionsJSON := options_to_json testOptions

/-- Fixture: the empty cache. -/
def emptyCache : Cache := fun _ => none

/-- Fixture: a cache holding `testStored` under key "session1". -/
def testCache : Cache :=
  fun k => if k = "session1" then some testStored else none

/-- Fixture: a library whose parse and verification both succeed. -/
def testLib : WebAuthnLib :=
  ⟨fun _ => some testParsed, fun _ _ _ => testOptions,
    fun _ _ _ _ _ _ _ => some ⟨[9], 6⟩⟩

/-- Fixture: a library whose response parsing raises. -/
def testLibParseFails : WebAuthnLib :=
  ⟨fun _ => none, fun _ _ _ => testOptions, fun _ _ _ _ _ _ _ => none⟩

/-!
Codec lemmas.
-/

theorem charToSix_sixToChar : ∀ n : Nat, n < 64 → charToSix (sixToChar n) = n := by
  decide

theorem bytesToSextets_lt :
    ∀ l : List Nat, (∀ b ∈ l, b < 256) → ∀ s ∈ bytesToSextets l, s < 64
  | [], _ => by simp [bytesToSextets]
  | [a], h => by
    have ha : a < 256 := h a (by simp)
    simp only [bytesToSextets, List.mem_cons, List.not_mem_nil, or_false]
    rintro s (rfl | rfl) <;> omega
  | [a, b], h => by
    have ha : a < 256 := h a (by simp)
    have hb : b < 256 := h b (by simp)
    simp only [bytesToSextets, List.mem_cons, List.not_mem_nil, or_false]
    rintro s (rfl | rfl | rfl) <;> omega
  | a :: b :: c :: rest, h => by
    have ha : a < 256 := h a (by simp)
    have hb : b < 256 := h b (by simp)
    have hc : c < 256 := h c (by simp)
    have ih := bytesToSextets_lt rest (fun x hx => h x (by simp [hx]))
    simp only [bytesToSextets, List.mem_cons]
    rintro s (rfl | rfl | rfl | rfl | hs)
    · omega
    · omega
    · omega
    · omega
    · exact ih s hs

theorem sextetsToBytes_bytesToSextets :
    ∀ l : List Nat, (∀ b ∈ l, b < 256) → sextetsToBytes (bytesToSextets l) = l
  | [], _ => rfl
  | [a], h => by
    have ha : a < 256 := h a (by simp)
    simp only [bytesToSextets, sextetsToBytes, List.cons.injEq, and_true]
    omega
  | [a, b], h => by
    have ha : a < 256 := h a (by simp)
    have hb : b < 256 := h b (by simp)
    simp only [bytesToSextets, sextetsToBytes, List.cons.injEq, and_true]
    constructor <;> omega
  | a :: b :: c :: rest, h => by
    have ha : a < 256 := h a (by simp)
    have hb : b < 256 := h b (by simp)
    have hc : c < 256 := h c (by simp)
    have ih := sextetsToBytes_bytesToSextets rest (fun x hx => h x (by simp [hx]))
    simp only [bytesToSextets, sextetsToBytes, List.cons.injEq]
    refine ⟨by omega, by omega, by omega, ih⟩

/-- Decoding inverts encoding on lists of genuine bytes. -/
theorem base64urlToBytes_bytesToBase64url (l : List Nat) (h : ∀ b ∈ l, b < 256) :
    base64urlToBytes (bytesToBase64url l) = l := by
  unfold base64urlToBytes bytesToBase64url
  rw [List.map_map]
  have hmap : (bytesToSextets l).map (charToSix ∘ sixToChar) = bytesToSextets l := by
    have := List.map_congr_left (l := bytesToSextets l)
      (f := charToSix ∘ sixToChar) (g := id)
      (fun s hs => charToSix_sixToChar s (bytesToSextets_lt l h s hs))
    simpa using this
  rw [hmap]
  exact sextetsToBytes_bytesToSextets l h

/-!
Shape lemmas for the two operations, shared by the claim theorems.
-/

/-- Loading from a cache that holds a document under the key raises
`NameError` (line 143: helper never imported). -/
theorem get_options_hit (st : Cache) (k : String) (j : OptionsJSON)
    (hst : st k = some j) :
    get_options st k = .error .nameError := by
  simp [get_options, cacheRetrieve, hst]

/-- Loading from a cache with no entry under the key returns `None` (line
138), before the broken line 143 is reached. -/
theorem get_options_absent (st : Cache) (k : String) (hst : st k = none) :
    get_options st k = .ok none := by
  simp [get_options, cacheRetrieve, hst]

/-- Shape of a `verify_authentication_response` call whose parse succeeds
and whose cache holds a document under the key: the load crashes with
`NameError`, the cache is untouched, and the trace stops at the read — the
delete and the verifier are never reached. -/
theorem finish_hit_shape (lib : WebAuthnLib) (settings : Settings)
    (st : Cache) (k : String) (ec : WebAuthnCredential) (r : Dict)
    (c : AuthenticationCredential) (j : OptionsJSON)
    (hp : lib.parse r = some c) (hst : st k = some j) :
    verify_authentication_response lib settings st k ec r =
      ⟨.error .nameError, st, [.parseCall, .cacheReadEvt k]⟩ := by
  unfold verify_authentication_response
  rw [hp, get_options_hit st k j hst]

/-- Shape of a `verify_authentication_response` call whose parse succeeds but
whose cache load finds nothing: the missing-state error, untouched cache, and
a trace that stops at the read. -/
theorem finish_absent_shape (lib : WebAuthnLib) (settings : Settings)
    (st : Cache) (k : String) (ec : WebAuthnCredential) (r : Dict)
    (c : AuthenticationCredential)
    (hp : lib.parse r = some c) (hst : st k = none) :
    verify_authentication_response lib settings st k ec r =
      ⟨.error (.invalidAuthenticationResponse ("no options for user " ++ k)),
        st, [.parseCall, .cacheReadEvt k]⟩ := by
  unfold verify_authentication_response
  rw [hp, get_options_absent st k hst]

/-- Shape of a `verify_authentication_response` call whose parse raises: the
error propagates, the cache is untouched, the trace stops at the parse. -/
theorem finish_parse_fail_shape (lib : WebAuthnLib) (settings : Settings)
    (st : Cache) (k : String) (ec : WebAuthnCredential) (r : Dict)
    (hp : lib.parse r = none) :
    verify_authentication_response lib settings st k ec r =
      ⟨.error .parseError, st, [.parseCall]⟩ := by
  unfold verify_authentication_response
  rw [hp]

/-!
Claim theorems.
-/

/-- C2 counterexample: for the stored options with timeout T = 750 ms the
expiration passed to the cache store is `int(750 / 1000 * 2) = 1` second,
which is not exactly 2 × 750 / 1000 = 1.5 seconds. -/
theorem c2_counterexample :
    ¬ (((save_options emptyCache "session1" opts750).1.expiration_seconds : ℚ)
        = 2 * 750 / 1000) := by
  norm_num [save_options, computeExpiration, opts750]

/-- C2 (amended): for every options record stored by `_save_options`: if a
numeric timeout T (ms) is present, the expiration passed to the cache store
equals ⌊2 × T / 1000⌋ seconds — the code truncates via `int(...)`, so the
value is exactly 2 × T / 1000 whenever T is a multiple of 500 (in particular
for all whole-second timeouts); if no timeout is present, the expiration
equals 120 seconds. -/
theorem c2_ttl (st : Cache) (k : String)
    (o : PublicKeyCredentialRequestOptions) :
    (o.timeout = none → (save_options st k o).1.expiration_seconds = 120)
    ∧ (∀ t, o.timeout = some t →
        (save_options st k o).1.expiration_seconds = 2 * t / 1000)
    ∧ (∀ t, o.timeout = some t → 500 ∣ t →
        ((save_options st k o).1.expiration_seconds : ℚ) = 2 * t / 1000) := by
  refine ⟨?_, ?_, ?_⟩
  · intro h
    simp [save_options, computeExpiration, h]
  · intro t h
    simp [save_options, computeExpiration, h]
  · intro t h hdvd
    obtain ⟨m, rfl⟩ := hdvd
    have hnat : (save_options st k o).1.expiration_seconds = m := by
      simp [save_options, computeExpiration, h]
      omega
    rw [hnat]
    push_cast
    ring

/-- C2 witness: timeout 60000 ms stores for `2 * 60000 / 1000 = 120` s. -/
theorem c2_witness :
    (save_options emptyCache "session1" testOptions).1.expiration_seconds
      = 2 * 60000 / 1000 :=
  (c2_ttl emptyCache "session1" testOptions).2.1 60000 rfl

/-- C4: when the cache holds no entry for the key, `finish` fails with the
invalid-authentication-response error carrying the key, the cache is
untouched, and the trace shows no delete and no verifier invocation. -/
theorem c4_missing_state (lib : WebAuthnLib) (settings : Settings)
    (st : Cache) (k : String) (ec : WebAuthnCredential) (r : Dict)
    (c : AuthenticationCredential)
    (hp : lib.parse r = some c) (habs : st k = none) :
    (verify_authentication_response lib settings st k ec r).result
      = .error (.invalidAuthenticationResponse ("no options for user " ++ k))
    ∧ (verify_authentication_response lib settings st k ec r).trace
      = [.parseCall, .cacheReadEvt k]
    ∧ (verify_authentication_response lib settings st k ec r).cache = st
    ∧ (∀ k2, Event.cacheDeleteEvt k2
        ∉ (verify_authentication_response lib settings st k ec r).trace)
    ∧ (∀ b, Event.verifyCall b
        ∉ (verify_authentication_response lib settings st k ec r).trace) := by
  rw [finish_absent_shape lib settings st k ec r c hp habs]
  refine ⟨rfl, rfl, rfl, ?_, ?_⟩ <;> intro x <;> simp

/-- C4 witness: concrete call against the empty cache. -/
theorem c4_witness :
    (verify_authentication_response testLib testSettings emptyCache
        "session1" testCredRecord []).result
      = .error (.invalidAuthenticationResponse
          ("no options for user " ++ "session1"))
    ∧ (verify_authentication_response testLib testSettings emptyCache
        "session1" testCredRecord []).cache = emptyCache :=
  ⟨(c4_missing_state testLib testSettings emptyCache "session1"
      testCredRecord [] testParsed rfl rfl).1,
   (c4_missing_state testLib testSettings emptyCache "session1"
      testCredRecord [] testParsed rfl rfl).2.2.1⟩

/-- C7 counterexample: calling `begin` with the unrecognized string "bogus"
is not silently ignored: the call raises (`UnboundLocalError`, since lines
54-59 bound no value for `_user_verification` and line 63 references it),
the option generator is never invoked, and no options object is returned. -/
theorem c7_counterexample :
    (generate_authentication_options testLib testSettings emptyCache
        "session1" "bogus" []).result = .error PyErr.unboundLocalError
    ∧ (generate_authentication_options testLib testSettings emptyCache
        "session1" "bogus" []).generateCalls = []
    ∧ ∀ o, (generate_authentication_options testLib testSettings emptyCache
        "session1" "bogus" []).result ≠ .ok o := by
  refine ⟨rfl, rfl, ?_⟩
  intro o h
  exact Except.noConfusion h

/-- C7 (amended): for every `begin` call whose `user_verification` string is
none of "discouraged" / "preferred" / "required", the internal enum is left
unbound and the call raises `UnboundLocalError` when it is referenced: no
error-free fallthrough happens, option generation is never invoked, and the
cache is unchanged. -/
theorem c7_unrecognized_policy (lib : WebAuthnLib) (settings : Settings)
    (st : Cache) (k s : String) (creds : List WebAuthnCredential)
    (h1 : s ≠ "discouraged") (h2 : s ≠ "preferred") (h3 : s ≠ "required") :
    (generate_authentication_options lib settings st k s creds).result
      = .error .unboundLocalError
    ∧ (generate_authentication_options lib settings st k s creds).generateCalls
      = []
    ∧ (generate_authentication_options lib settings st k s creds).cache = st := by
  have hpuv : parse_user_verification s = none := by
    simp [parse_user_verification, h1, h2, h3]
  unfold generate_authentication_options
  rw [hpuv]
  exact ⟨rfl, rfl, rfl⟩

/-- C7 witness: the amended claim at the concrete string "bogus". -/
theorem c7_witness :
    (generate_authentication_options testLib testSettings emptyCache
        "session1" "bogus" []).cache = emptyCache :=
  (c7_unrecognized_policy testLib testSettings emptyCache "session1" "bogus"
    [] (by decide) (by decide) (by decide)).2.2

/-- C8: the descriptors passed to the external option generator are built
from exactly the last 64 elements of `existing_credentials` (all of them when
fewer), in their original relative order (the used block is a suffix of the
input); with 100 credentials exactly the earliest 36 are dropped. -/
theorem c8_truncation (lib : WebAuthnLib) (settings : Settings) (st : Cache)
    (k s : String) (creds : List WebAuthnCredential)
    (uv : UserVerificationRequirement)
    (huv : parse_user_verification s = some uv) :
    (generate_authentication_options lib settings st k s creds).generateCalls
      = [⟨settings.RP_ID, uv,
          (creds.drop (creds.length - 64)).map descriptorOfCredential⟩]
    ∧ creds.take (creds.length - 64) ++ creds.drop (creds.length - 64) = creds
    ∧ (creds.drop (creds.length - 64)).length = min 64 creds.length
    ∧ (creds.length ≤ 64 → creds.drop (creds.length - 64) = creds)
    ∧ (creds.length = 100 →
        creds.drop (creds.length - 64) = creds.drop 36
        ∧ (creds.drop 36).length = 64) := by
  refine ⟨?_, List.take_append_drop _ _, ?_, ?_, ?_⟩
  · unfold generate_authentication_options
    rw [huv]
    rfl
  · rw [List.length_drop]
    omega
  · intro hle
    have : creds.length - 64 = 0 := by omega
    rw [this, List.drop_zero]
  · intro h100
    constructor
    · rw [h100]
    · rw [List.length_drop]
      omega

/-- C8 witness: with 100 concrete credentials `begin` passes the last 64,
i.e. exactly the block obtained by dropping the earliest 36. -/
theorem c8_witness :
    (generate_authentication_options testLib testSettings emptyCache
        "session1" "preferred" (List.replicate 100 testCredRecord)).generateCalls
      = [⟨testSettings.RP_ID, UserVerificationRequirement.PREFERRED,
          ((List.replicate 100 testCredRecord).drop
            ((List.replicate 100 testCredRecord).length - 64)).map
            descriptorOfCredential⟩]
    ∧ (List.replicate 100 testCredRecord).drop
          ((List.replicate 100 testCredRecord).length - 64)
        = (List.replicate 100 testCredRecord).drop 36
    ∧ ((List.replicate 100 testCredRecord).drop 36).length = 64 := by
  have h := c8_truncation testLib testSettings emptyCache "session1"
    "preferred" (List.replicate 100 testCredRecord)
    UserVerificationRequirement.PREFERRED rfl
  exact ⟨h.1, (h.2.2.2.2 (by simp)).1, (h.2.2.2.2 (by simp)).2⟩

/-- Helper: the decode written at lines 144-150 (dead code behind the
`NameError` at line 143) would, as intended, invert the serialization:
challenge bytes and every allowed-credential id come back byte-identical. -/
theorem intended_decode_roundtrip (o : PublicKeyCredentialRequestOptions)
    (hch : ∀ b ∈ o.challenge, b < 256)
    (hids : ∀ c ∈ o.allowCredentials, ∀ b ∈ c.id, b < 256) :
    (decodeStoredOptions (options_to_json o)).challenge = o.challenge
    ∧ (decodeStoredOptions (options_to_json o)).allowCredentials.map
        PublicKeyCredentialDescriptor.id
      = o.allowCredentials.map PublicKeyCredentialDescriptor.id := by
  constructor
  · simp only [decodeStoredOptions, options_to_json]
    exact base64urlToBytes_bytesToBase64url o.challenge hch
  · simp only [decodeStoredOptions, options_to_json, List.map_map]
    refine List.map_congr_left ?_
    intro c hc
    simp only [Function.comp_apply]
    exact base64urlToBytes_bytesToBase64url c.id (hids c hc)

/-- C1 (code bug evidence): at the failing input — options stored under the
key, well-formed responses — the first `finish` call crashes with
`NameError` raised at the load (line 143) BEFORE the delete step, which is
unreachable; the record stays cached, and a second call with the same key
crashes with `NameError` again, not with the missing-ceremony-state error
the claim (and the spec's single-use design) describe. -/
theorem c1_nameerror_before_delete :
    (verify_authentication_response testLib testSettings testCache "session1"
        testCredRecord []).result = .error PyErr.nameError
    ∧ Event.cacheDeleteEvt "session1"
        ∉ (verify_authentication_response testLib testSettings testCache
            "session1" testCredRecord []).trace
    ∧ (verify_authentication_response testLib testSettings testCache
        "session1" testCredRecord []).cache "session1" = some testStored
    ∧ (verify_authentication_response testLib testSettings
        (verify_authentication_response testLib testSettings testCache
          "session1" testCredRecord []).cache "session1" testCredRecord
        []).result = .error PyErr.nameError := by
  refine ⟨rfl, by decide, rfl, rfl⟩

/-- C3 (code bug evidence): on a cache hit the call performs the read and
then crashes: the trace is exactly [parse, read] — the delete (line 95) and
the verifier invocation (line 97) never occur, so the claimed
read-delete-verify order is unrealizable in the module as written. -/
theorem c3_read_then_crash :
    (verify_authentication_response testLib testSettings testCache "session1"
        testCredRecord []).trace
      = [Event.parseCall, Event.cacheReadEvt "session1"]
    ∧ (verify_authentication_response testLib testSettings testCache
        "session1" testCredRecord []).result = .error PyErr.nameError
    ∧ Event.cacheDeleteEvt "session1"
        ∉ (verify_authentication_response testLib testSettings testCache
            "session1" testCredRecord []).trace
    ∧ Event.verifyCall true
        ∉ (verify_authentication_response testLib testSettings testCache
            "session1" testCredRecord []).trace
    ∧ Event.verifyCall false
        ∉ (verify_authentication_response testLib testSettings testCache
            "session1" testCredRecord []).trace := by
  refine ⟨rfl, rfl, by decide, by decide, by decide⟩

/-- C5 (code bug evidence): the gating computation of lines 89-93
(`require_user_verification_of`) is true exactly on the "required" policy —
the behaviour the claim describes — but those lines are unreachable: at the
failing input (options stored, well-formed response) the verifier is never
invoked with either flag value, because the load crashes first. -/
theorem c5_gating_unreachable :
    Event.verifyCall true
      ∉ (verify_authentication_response testLib testSettings testCache
          "session1" testCredRecord []).trace
    ∧ Event.verifyCall false
      ∉ (verify_authentication_response testLib testSettings testCache
          "session1" testCredRecord []).trace
    ∧ require_user_verification_of (some UserVerificationRequirement.REQUIRED)
        = true
    ∧ require_user_verification_of (some UserVerificationRequirement.PREFERRED)
        = false
    ∧ require_user_verification_of (some UserVerificationRequirement.DISCOURAGED)
        = false
    ∧ require_user_verification_of none = false := by
  refine ⟨by decide, by decide, rfl, rfl, rfl, rfl⟩

/-- C6 (code bug evidence): storing a record with `_save_options` and
loading it back with `_get_options` under the same key does not round trip
in the module as written — the load raises `NameError` — although the decode
written at lines 144-150 would restore the challenge bytes and every
allowed-credential id byte-identically, as the claim intends. -/
theorem c6_roundtrip_crash :
    get_options (save_options emptyCache "session1" testOptions).2 "session1"
      = .error PyErr.nameError
    ∧ (decodeStoredOptions (options_to_json testOptions)).challenge
        = testOptions.challenge
    ∧ (decodeStoredOptions (options_to_json testOptions)).allowCredentials.map
        PublicKeyCredentialDescriptor.id
      = testOptions.allowCredentials.map PublicKeyCredentialDescriptor.id := by
  refine ⟨rfl,
    (intended_decode_roundtrip testOptions (by decide) (by decide)).1,
    (intended_decode_roundtrip testOptions (by decide) (by decide)).2⟩

/-- C9 (code bug evidence): no `verify_authentication_response` call can
return a value in the module as written: a parse failure propagates, a cache
miss raises the missing-state error, and a cache hit raises `NameError` at
the load, so the success path of lines 107-113 (which would return the
server-side username) is unreachable for every input. -/
theorem c9_no_success (lib : WebAuthnLib) (settings : Settings) (st : Cache)
    (k : String) (ec : WebAuthnCredential) (r : Dict)
    (v : VerifiedAuthentication) :
    (verify_authentication_response lib settings st k ec r).result ≠ .ok v := by
  intro hv
  rcases hpe : lib.parse r with _ | cr
  · rw [finish_parse_fail_shape lib settings st k ec r hpe] at hv
    exact Except.noConfusion hv
  · rcases hste : st k with _ | j
    · rw [finish_absent_shape lib settings st k ec r cr hpe hste] at hv
      exact Except.noConfusion hv
    · rw [finish_hit_shape lib settings st k ec r cr j hpe hste] at hv
      exact Except.noConfusion hv

/-- C9 witness: the concrete would-be success (library parse and
verification both succeed, options cached) still returns no value. -/
theorem c9_witness :
    (verify_authentication_response testLib testSettings testCache "session1"
        testCredRecord []).result
      ≠ .ok ⟨[9], 6, "alice"⟩ :=
  c9_no_success testLib testSettings testCache "session1" testCredRecord []
    ⟨[9], 6, "alice"⟩

/-- C10 counterexample: after a malformed-response `finish` the stored
record is indeed still cached unchanged, but it is not "available for a
later well-formed finish attempt": that later attempt crashes with
`NameError` (it does find the record — it does not fail with the
missing-state error) and never invokes the verifier. -/
theorem c10_counterexample :
    (verify_authentication_response testLibParseFails testSettings testCache
        "session1" testCredRecord []).cache "session1" = some testStored
    ∧ (verify_authentication_response testLib testSettings
        (verify_authentication_response testLibParseFails testSettings
          testCache "session1" testCredRecord []).cache "session1"
        testCredRecord []).result = .error PyErr.nameError
    ∧ Event.verifyCall true
        ∉ (verify_authentication_response testLib testSettings
            (verify_authentication_response testLibParseFails testSettings
              testCache "session1" testCredRecord []).cache "session1"
            testCredRecord []).trace
    ∧ Event.verifyCall false
        ∉ (verify_authentication_response testLib testSettings
            (verify_authentication_response testLibParseFails testSettings
              testCache "session1" testCredRecord []).cache "session1"
            testCredRecord []).trace := by
  refine ⟨rfl, rfl, by decide, by decide⟩

/-- C10 (amended): when parsing the raw client response raises, the error
propagates before any cache operation: no cache read and no cache delete
occur for any key, the cache is unchanged, so the stored record is still
present; a later well-formed `finish` attempt on that cache finds it — it
does not fail with the missing-state error — but crashes with `NameError`
at the broken load (line 143), its trace stopping at the read, never
reaching the verifier. -/
theorem c10_malformed_response (lib lib2 : WebAuthnLib) (settings : Settings)
    (st : Cache) (k : String) (ec ec2 : WebAuthnCredential) (r r2 : Dict)
    (cr2 : AuthenticationCredential) (j : OptionsJSON)
    (hp : lib.parse r = none)
    (hp2 : lib2.parse r2 = some cr2) (hst : st k = some j) :
    (verify_authentication_response lib settings st k ec r).result
      = .error .parseError
    ∧ (verify_authentication_response lib settings st k ec r).trace
      = [.parseCall]
    ∧ (verify_authentication_response lib settings st k ec r).cache = st
    ∧ (∀ k2, Event.cacheReadEvt k2
        ∉ (verify_authentication_response lib settings st k ec r).trace)
    ∧ (∀ k2, Event.cacheDeleteEvt k2
        ∉ (verify_authentication_response lib settings st k ec r).trace)
    ∧ (verify_authentication_response lib2 settings
          (verify_authentication_response lib settings st k ec r).cache
          k ec2 r2).result = .error .nameError
    ∧ (verify_authentication_response lib2 settings
          (verify_authentication_response lib settings st k ec r).cache
          k ec2 r2).trace = [.parseCall, .cacheReadEvt k] := by
  have hshape := finish_parse_fail_shape lib settings st k ec r hp
  have hcache : (verify_authentication_response lib settings st k ec r).cache
      = st := by
    rw [hshape]
  have hsecond := finish_hit_shape lib2 settings st k ec2 r2 cr2 j hp2 hst
  refine ⟨by rw [hshape], by rw [hshape], hcache, ?_, ?_, ?_, ?_⟩
  · intro k2
    rw [hshape]
    simp
  · intro k2
    rw [hshape]
    simp
  · rw [hcache, hsecond]
  · rw [hcache, hsecond]

/-- C10 witness: a concrete malformed-response call propagates the parse
error, leaves the cache exactly as it was, and the later well-formed
attempt crashes at the load. -/
theorem c10_witness :
    (verify_authentication_response testLibParseFails testSettings testCache
        "session1" testCredRecord []).result = .error PyErr.parseError
    ∧ (verify_authentication_response testLibParseFails testSettings testCache
        "session1" testCredRecord []).cache = testCache
    ∧ (verify_authentication_response testLib testSettings
        (verify_authentication_response testLibParseFails testSettings
          testCache "session1" testCredRecord []).cache "session1"
        testCredRecord []).result = .error PyErr.nameError :=
  ⟨(c10_malformed_response testLibParseFails testLib testSettings testCache
      "session1" testCredRecord testCredRecord [] [] testParsed testStored
      rfl rfl (by simp [testCache])).1,
   (c10_malformed_response testLibParseFails testLib testSettings testCache
      "session1" testCredRecord testCredRecord [] [] testParsed testStored
      rfl rfl (by simp [testCache])).2.2.1,
   (c10_malformed_response testLibParseFails testLib testSettings testCache
      "session1" testCredRecord testCredRecord [] [] testParsed testStored
      rfl rfl (by simp [testCache])).2.2.2.2.2.1⟩
end WebauthnIO
